import Mathlib

/-!
Verification of the smart-pointer library in src/shared_and_weak.cpp and
src/unique_ptr.cpp.

The shared/weak side is embedded as a state machine over one managed-object
group: one `control_block` (lines 12-36 of shared_and_weak.cpp) together with
the live non-empty `my_shared_ptr` and `my_weak_ptr` handles that reference
it.  The atomic counters are modelled as mathematical integers (the code uses
std::atomic<int>; no claim here depends on 32-bit overflow, and every
fetch_add / fetch_sub is a single atomic read-modify-write, so sequential
runs of the member functions model the per-operation effects exactly).
Destruction and deallocation events are recorded in ghost fields
(objDestroyed, objStorageFreed, cbFreed and their counters) so that
"destroyed exactly once" style properties can be stated.  Counter fields keep
their values after the block is freed, which only lets us state what the code
would read through a dangling pointer.
-/

namespace SmartPtr

/-- The two counters of `control_block` (shared_and_weak.cpp lines 12-18).
The constructor (line 18) sets strong_count = 1 and weak_count = 0. -/
structure ControlBlock where
  strong : Int
  weak : Int
deriving DecidableEq, Repr

/-- State of one managed-object group: the control block, ghost lifecycle
flags and event counters, and how many live non-empty shared / weak handles
reference the block. -/
structure GState where
  cb : ControlBlock
  /-- the control-block storage was freed (delete this, line 26) -/
  cbFreed : Bool
  /-- how many times the control-block storage was freed -/
  cbFreeCount : Nat
  /-- the payload destructor has run -/
  objDestroyed : Bool
  /-- how many times the payload destructor ran -/
  objDestroyCount : Nat
  /-- the payload storage was deallocated on its own (the delete expression
  in control_block::release_strong, line 32) -/
  objStorageFreed : Bool
  /-- live non-empty my_shared_ptr handles referencing this block -/
  sharedHandles : Nat
  /-- live non-empty my_weak_ptr handles referencing this block -/
  weakHandles : Nat
deriving DecidableEq, Repr

/-- control_block::add_weak (lines 20-22): weak_count.fetch_add(1). -/
def add_weak (s : GState) : GState :=
  { s with cb := { s.cb with weak := s.cb.weak + 1 } }

/-- control_block::release_weak (lines 24-28): fetch_sub(1) on weak_count;
if the value before the decrement was 1, delete this (free the block). -/
def release_weak (s : GState) : GState :=
  if s.cb.weak = 1 then
    { s with cb := { s.cb with weak := s.cb.weak - 1 },
             cbFreed := true, cbFreeCount := s.cbFreeCount + 1 }
  else
    { s with cb := { s.cb with weak := s.cb.weak - 1 } }

/-- control_block::release_strong (lines 30-35): fetch_sub(1) on
strong_count; if the value before the decrement was 1, run the delete
expression `delete static_cast<T*>(this + 1)` - which destroys the payload
AND deallocates its storage - then call release_weak.  (No pointer class in
the source ever calls this member.) -/
def release_strong (s : GState) : GState :=
  if s.cb.strong = 1 then
    release_weak
      { s with cb := { s.cb with strong := s.cb.strong - 1 },
               objDestroyed := true, objDestroyCount := s.objDestroyCount + 1,
               objStorageFreed := true }
  else
    { s with cb := { s.cb with strong := s.cb.strong - 1 } }

/-- The strong_count.fetch_add(1) performed by the my_shared_ptr copy
constructor (line 54) and copy assignment (line 69). -/
def retain_strong (s : GState) : GState :=
  { s with cb := { s.cb with strong := s.cb.strong + 1 } }

/-- my_shared_ptr::release (lines 106-111): if control is non-null,
fetch_sub(1) on strong_count; if the value before the decrement was 1,
destroy the payload in place (ptr->~T(), line 108 - no deallocation of the
payload storage) and call control->release_weak().  `control` says whether
the handle holds a non-null control pointer. -/
def sharedRelease (control : Bool) (s : GState) : GState :=
  if control then
    if s.cb.strong = 1 then
      release_weak
        { s with cb := { s.cb with strong := s.cb.strong - 1 },
                 objDestroyed := true, objDestroyCount := s.objDestroyCount + 1 }
    else
      { s with cb := { s.cb with strong := s.cb.strong - 1 } }
  else s

/-- my_shared_ptr::use_count (lines 93-95): control non-null gives
strong_count.load, else 0. -/
def use_count (control : Bool) (s : GState) : Int :=
  if control then s.cb.strong else 0

/-- my_weak_ptr::use_count (lines 148-150): same body as the shared
version - control non-null gives strong_count.load, else 0. -/
def weak_use_count (control : Bool) (s : GState) : Int :=
  if control then s.cb.strong else 0

/-- my_weak_ptr::expired (lines 152-154): use_count() == 0. -/
def expired (control : Bool) (s : GState) : Bool :=
  weak_use_count control s == 0

/-- Modelled from the spec: the aliasing construction inside
my_weak_ptr::lock.  The source (lines 156-161) checks `!expired()` and then
returns `my_shared_ptr<T>(*this)`, but my_shared_ptr has no constructor
taking a my_weak_ptr, so that call is ill-formed when instantiated; the spec
describes the intent as a copy-construction that shares the pair and
re-increments strong_count.  Returns (non-empty result?, new state). -/
def lockModel (control : Bool) (s : GState) : Bool × GState :=
  if expired control s then (false, s) else (true, retain_strong s)

/-- my_shared_ptr copy constructor (lines 52-56): alias the pair; if the
source control is non-null, fetch_add(1) on strong_count.  Returns (is the
new handle non-empty?, new state). -/
def sharedCopyCtor (control : Bool) (s : GState) : Bool × GState :=
  if control then (true, retain_strong s) else (false, s)

/-- my_weak_ptr constructor from a my_shared_ptr (lines 122-126): alias the
pair; if the source control is non-null, add_weak. -/
def weakFromSharedCtor (control : Bool) (s : GState) : Bool × GState :=
  if control then (true, add_weak s) else (false, s)

/-- my_shared_ptr copy assignment (lines 63-73) for distinct objects
(the `this != &other` guard holds): release() the destination, copy the
pair, and if the source control is non-null fetch_add(1) on strong_count.
Both handles are modelled against the single group, so destControl says
whether the destination previously referenced it. -/
def sharedCopyAssign (destControl srcControl : Bool) (s : GState) : Bool × GState :=
  if srcControl then (true, retain_strong (sharedRelease destControl s))
  else (false, sharedRelease destControl s)

/-- my_weak_ptr assignment from a my_shared_ptr (lines 134-142): reset()
the destination (release_weak when its control is non-null, lines 164-170),
copy the pair, and if the source control is non-null add_weak. -/
def weakAssignFromShared (destControl srcControl : Bool) (s : GState) : Bool × GState :=
  if srcControl then
    (true, add_weak (if destControl then release_weak s else s))
  else
    (false, if destControl then release_weak s else s)

/-- State produced by my_shared_ptr::make_shared (lines 97-103): one
combined allocation, control_block constructed in place (strong_count = 1,
weak_count = 0), payload constructed next to it, one shared handle
returned. -/
def initState : GState :=
  { cb := { strong := 1, weak := 0 },
    cbFreed := false, cbFreeCount := 0,
    objDestroyed := false, objDestroyCount := 0, objStorageFreed := false,
    sharedHandles := 1, weakHandles := 0 }

/-- The client-visible operations on one group.  Each operation requires a
live handle of the right kind; lockWeak is the spec-modelled lock (see
lockModel). -/
inductive Op where
  | cloneShared
  | dropShared
  | weakFromShared
  | cloneWeak
  | dropWeak
  | lockWeak
deriving DecidableEq, Repr

/-- One API operation.  Returns none when no handle of the required kind is
live (the operation cannot be performed by any client). -/
def step (op : Op) (s : GState) : Option GState :=
  match op with
  | .cloneShared =>
      if 1 ≤ s.sharedHandles then
        some { retain_strong s with sharedHandles := s.sharedHandles + 1 }
      else none
  | .dropShared =>
      if 1 ≤ s.sharedHandles then
        some { sharedRelease true s with sharedHandles := s.sharedHandles - 1 }
      else none
  | .weakFromShared =>
      if 1 ≤ s.sharedHandles then
        some { add_weak s with weakHandles := s.weakHandles + 1 }
      else none
  | .cloneWeak =>
      if 1 ≤ s.weakHandles then
        some { add_weak s with weakHandles := s.weakHandles + 1 }
      else none
  | .dropWeak =>
      if 1 ≤ s.weakHandles then
        some { release_weak s with weakHandles := s.weakHandles - 1 }
      else none
  | .lockWeak =>
      if 1 ≤ s.weakHandles then
        some (if expired true s then s
              else { retain_strong s with sharedHandles := s.sharedHandles + 1 })
      else none

/-- Run a list of operations from a state. -/
def runOps (ops : List Op) (s : GState) : Option GState :=
  match ops with
  | [] => some s
  | op :: rest =>
      match step op s with
      | none => none
      | some s2 => runOps rest s2

/-- States reachable from a fresh make_shared group by client operations. -/
inductive Reachable : GState → Prop where
  | init : Reachable initState
  | more {s s2 : GState} (op : Op) : Reachable s → step op s = some s2 → Reachable s2

/-! Helper lemmas about the primitive operations. -/

theorem release_weak_cb_strong (s : GState) :
    (release_weak s).cb.strong = s.cb.strong := by
  by_cases hw : s.cb.weak = 1 <;> simp [release_weak, hw]

theorem release_weak_sharedHandles (s : GState) :
    (release_weak s).sharedHandles = s.sharedHandles := by
  by_cases hw : s.cb.weak = 1 <;> simp [release_weak, hw]

theorem add_weak_cb_strong (s : GState) :
    (add_weak s).cb.strong = s.cb.strong := rfl

theorem sharedRelease_cb_strong (s : GState) :
    (sharedRelease true s).cb.strong = s.cb.strong - 1 := by
  by_cases h : s.cb.strong = 1 <;> by_cases hw : s.cb.weak = 1 <;>
    simp [sharedRelease, release_weak, h, hw]

theorem sharedRelease_sharedHandles (s : GState) :
    (sharedRelease true s).sharedHandles = s.sharedHandles := by
  by_cases h : s.cb.strong = 1 <;> by_cases hw : s.cb.weak = 1 <;>
    simp [sharedRelease, release_weak, h, hw]

/-- In every reachable state, strong_count equals the number of live
non-empty shared handles: make_shared starts both at one, every clone or
successful lock raises both by one, and every shared destruction lowers
both by one. -/
theorem reachable_strong_eq_handles (s : GState) (h : Reachable s) :
    s.cb.strong = (s.sharedHandles : Int) := by
  induction h with
  | init => rfl
  | more op hs hstep ih =>
      cases op <;> simp only [step] at hstep <;> split at hstep <;> cases hstep <;>
        simp [retain_strong, add_weak, sharedRelease_cb_strong, sharedRelease_sharedHandles,
              release_weak_cb_strong, release_weak_sharedHandles] <;>
        (try split) <;> (try simp [retain_strong]) <;> omega

/-- Once strong_count is zero, no single operation can raise it: clones and
drops need a live shared handle (none exists, since strong_count counts
them), a weak pointer can only be built from a live shared handle, weak
retains and releases do not touch strong_count, and lock fails its expired
check. -/
theorem strong_zero_step (s : GState) (hinv : s.cb.strong = (s.sharedHandles : Int))
    (hz : s.cb.strong = 0) (op : Op) (s2 : GState) (hstep : step op s = some s2) :
    s2.cb.strong = 0 := by
  have hh : s.sharedHandles = 0 := by omega
  cases op <;> simp only [step] at hstep <;> split at hstep <;> cases hstep <;>
    simp [retain_strong, add_weak, release_weak_cb_strong, expired, weak_use_count, hz] <;>
    omega

/-- Reachability is preserved along a run, and from a reachable state with
strong_count zero every run keeps strong_count at zero. -/
theorem strong_zero_persists (ops : List Op) :
    ∀ (s : GState), Reachable s → s.cb.strong = 0 →
      ∀ (s2 : GState), runOps ops s = some s2 → s2.cb.strong = 0 := by
  induction ops with
  | nil =>
      intro s _ hz s2 hrun
      cases hrun
      exact hz
  | cons op rest ih =>
      intro s hr hz s2 hrun
      unfold runOps at hrun
      cases hcase : step op s with
      | none => rw [hcase] at hrun; cases hrun
      | some s1 =>
          rw [hcase] at hrun
          exact ih s1 (Reachable.more op hr hcase)
            (strong_zero_step s (reachable_strong_eq_handles s hr) hz op s1 hcase) s2 hrun

/-! Claim theorems for the shared/weak state machine. -/

/-- Claim C1 is violated by the code (code_bug evidence).  First conjunct:
from a fresh make_shared group, constructing one WeakPointer and then
destroying it (while the SharedPointer is still alive) frees the
ControlBlock storage, at a moment when strong_count is one, the payload is
not destroyed, and a shared handle remains - the block does not wait for
both counts to reach zero.  Second conjunct: destroying the only
SharedPointer with no WeakPointer ever created leaves weak_count at minus
one and the ControlBlock storage never freed - it is not eventually freed
exactly once.  Both follow from weak_count being initialized to zero with
no implicit strong-side hold. -/
theorem c1_controlBlock_lifetime_violated :
    ((runOps [Op.weakFromShared, Op.dropWeak] initState).map
        (fun s => (s.cbFreed, s.cb.strong, s.objDestroyed, s.sharedHandles))
      = some (true, 1, false, 1))
    ∧ ((runOps [Op.dropShared] initState).map
        (fun s => (s.cbFreeCount, s.cb.weak, s.sharedHandles, s.weakHandles))
      = some (0, -1, 0, 0)) := by
  decide

/-- Claim C2 is violated by the code (code_bug evidence): make_shared, one
clone (N = 1), destroy both instances, no WeakPointer ever created.  The
payload is destroyed exactly once (on the decrement that brings
strong_count to zero), but the metadata is released zero times, not exactly
once: the final release_weak decrements weak_count from zero to minus one
and the ControlBlock storage is never freed. -/
theorem c2_payload_once_metadata_never :
    (runOps [Op.cloneShared, Op.dropShared, Op.dropShared] initState).map
        (fun s => (s.objDestroyCount, s.objDestroyed, s.cbFreeCount, s.cb.weak,
                   s.sharedHandles, s.weakHandles))
      = some (1, true, 0, -1, 0, 0) := by
  decide

/-- Claim C5 counterexample: at the state produced by make_shared
(strong_count one), my_shared_ptr::release and control_block::release_strong
produce different states, so the two are not equivalent in effect. -/
theorem c5_counterexample :
    sharedRelease true initState ≠ release_strong initState := by
  decide

/-- Claim C5 amended: my_shared_ptr::release agrees with
control_block::release_strong on both counters, on payload destruction, and
on the metadata release, but not on payload-storage deallocation: release
destroys the payload in place and never frees its storage separately, while
release_strong runs a delete expression that also deallocates the storage
behind the object pointer whenever the decrement goes from one to zero (and
release is a no-op on an empty handle). -/
theorem c5_release_vs_release_strong (s : GState) :
    (sharedRelease true s).cb = (release_strong s).cb
    ∧ (sharedRelease true s).objDestroyed = (release_strong s).objDestroyed
    ∧ (sharedRelease true s).objDestroyCount = (release_strong s).objDestroyCount
    ∧ (sharedRelease true s).cbFreed = (release_strong s).cbFreed
    ∧ (sharedRelease true s).cbFreeCount = (release_strong s).cbFreeCount
    ∧ (sharedRelease true s).objStorageFreed = s.objStorageFreed
    ∧ (release_strong s).objStorageFreed = (if s.cb.strong = 1 then true else s.objStorageFreed)
    ∧ sharedRelease false s = s := by
  by_cases h : s.cb.strong = 1 <;> by_cases hw : s.cb.weak = 1 <;>
    simp [sharedRelease, release_strong, release_weak, h, hw]

/-- Claim C7: expired() is true exactly when strong_count is zero; it is
true on an empty WeakPointer (control absent - which is what construction
from an empty SharedPointer stores); and from any reachable state in which
strong_count is zero, no sequence of further operations makes it positive
again, so expired never flips back to false. -/
theorem c7_expired_iff_strong_zero_and_monotone (s : GState) (h : Reachable s) :
    (expired true s = true ↔ s.cb.strong = 0)
    ∧ expired false s = true
    ∧ (∀ (ops : List Op) (s2 : GState), s.cb.strong = 0 → runOps ops s = some s2 →
        expired true s2 = true) := by
  refine ⟨by simp [expired, weak_use_count], by simp [expired, weak_use_count], ?_⟩
  intro ops s2 hz hrun
  have hz2 := strong_zero_persists ops s h hz s2 hrun
  simp [expired, weak_use_count, hz2]

/-- Witness for C7 at the fresh make_shared state. -/
theorem c7_witness : expired false initState = true :=
  (c7_expired_iff_strong_zero_and_monotone initState Reachable.init).2.1

/-- Claim C9: use_count of a SharedPointer and of a WeakPointer returns the
current strong_count of the associated ControlBlock when the control
pointer is present, and zero when the instance is empty. -/
theorem c9_use_count_reports_strong (s : GState) :
    use_count true s = s.cb.strong ∧ use_count false s = 0
    ∧ weak_use_count true s = s.cb.strong ∧ weak_use_count false s = 0 := by
  simp [use_count, weak_use_count]

/-- Claim C10 counterexample: assigning from an empty SharedPointer into a
non-empty destination does change reference counts - on a fresh make_shared
group (strong one, weak zero), shared copy assignment from an empty source
releases the destination (strong drops to zero, the payload is destroyed),
and weak assignment from an empty source releases the old weak reference
(weak_count drops to minus one). -/
theorem c10_counterexample :
    (sharedCopyAssign true false initState).2.cb ≠ initState.cb
    ∧ (weakAssignFromShared true false initState).2.cb ≠ initState.cb := by
  decide

/-- Claim C10 amended: copy construction of a SharedPointer from an empty
one, and construction of a WeakPointer from an empty SharedPointer, yield
an empty pointer and leave the state unchanged; copy assignment and weak
assignment from an empty source yield an empty pointer and perform no
retain, leave the state unchanged when the destination is itself empty, and
on a non-empty destination only perform the normal release of the
destination (my_shared_ptr::release resp. release_weak). -/
theorem c10_empty_source_ops (s : GState) :
    sharedCopyCtor false s = (false, s)
    ∧ weakFromSharedCtor false s = (false, s)
    ∧ sharedCopyAssign false false s = (false, s)
    ∧ weakAssignFromShared false false s = (false, s)
    ∧ (sharedCopyAssign true false s).1 = false
    ∧ (sharedCopyAssign true false s).2 = sharedRelease true s
    ∧ (weakAssignFromShared true false s).1 = false
    ∧ (weakAssignFromShared true false s).2 = release_weak s := by
  simp [sharedCopyCtor, weakFromSharedCtor, sharedCopyAssign, weakAssignFromShared,
        sharedRelease]

/-- Claim C3, for the spec-modelled lock (the source calls a my_shared_ptr
constructor taking a my_weak_ptr, which does not exist - see lockModel):
when not expired, lock returns a non-empty pointer sharing the group and
increments strong_count by exactly one, touching no other field; when
expired it returns an empty pointer and changes nothing; on an empty weak
pointer (control absent) it always returns an empty pointer unchanged. -/
theorem c3_lock_behavior (control : Bool) (s : GState) :
    (expired control s = false →
      lockModel control s = (true, retain_strong s)
      ∧ (retain_strong s).cb.strong = s.cb.strong + 1
      ∧ (retain_strong s).cb.weak = s.cb.weak
      ∧ (retain_strong s).objDestroyed = s.objDestroyed
      ∧ (retain_strong s).cbFreed = s.cbFreed)
    ∧ (expired control s = true → lockModel control s = (false, s))
    ∧ lockModel false s = (false, s) := by
  refine ⟨fun h => ?_, fun h => ?_, ?_⟩
  · simp [lockModel, h, retain_strong]
  · simp [lockModel, h]
  · simp [lockModel, expired, weak_use_count]

/-- Witness for C3: on the fresh make_shared group lock succeeds with a
strong retain, and on an empty weak pointer it returns an empty pointer. -/
theorem c3_witness :
    lockModel true initState = (true, retain_strong initState)
    ∧ lockModel false initState = (false, initState) :=
  ⟨((c3_lock_behavior true initState).1 (by decide)).1,
   (c3_lock_behavior false initState).2.2⟩

/-! The promotion race of claim C4.  Thread A performs the two separate
steps of lock on a live weak handle: first the expired() check, later the
strong_count increment of the aliasing construction.  Thread B runs
my_shared_ptr::release on the last live shared handle.  Each step is one
atomic action; a schedule places the single step of B before, between, or
after the two steps of A. -/

/-- Placement of the release of thread B relative to the two lock steps of
thread A. -/
inductive Sched where
  | bFirst
  | bMid
  | bLast
deriving DecidableEq, Repr

/-- Initial state of the race: one live shared handle and one live weak
handle (the one whose lock is being called). -/
def raceInit : GState :=
  { initState with cb := { strong := 1, weak := 1 }, weakHandles := 1 }

/-- Run the race under a schedule.  Returns (did lock return a non-empty
pointer, final state). -/
def lockRace (sc : Sched) : Bool × GState :=
  match sc with
  | .bFirst =>
      let s1 := sharedRelease true raceInit
      let ok := !(expired true s1)
      (ok, if ok then retain_strong s1 else s1)
  | .bMid =>
      let ok := !(expired true raceInit)
      let s1 := sharedRelease true raceInit
      (ok, if ok then retain_strong s1 else s1)
  | .bLast =>
      let ok := !(expired true raceInit)
      let s1 := if ok then retain_strong raceInit else raceInit
      (ok, sharedRelease true s1)

/-- Claim C4 counterexample: it is not the case that every interleaving of
the two lock steps with the release keeps a successful lock away from a
destroyed object - the schedule that runs the release between the expired()
check and the increment falsifies it. -/
theorem c4_counterexample :
    ¬ (∀ sc : Sched, (lockRace sc).1 = true → (lockRace sc).2.objDestroyed = false) := by
  intro hall
  exact absurd (hall Sched.bMid (by decide)) (by decide)

/-- Claim C4 amended: the check and the increment are two separate atomic
steps, not one atomic unit.  When the release of the last strong reference
lands between them, the payload is destroyed (and here even the
ControlBlock freed) yet lock still reports success - a SharedPointer to a
destroyed object.  When the release comes first the lock fails cleanly, and
when it comes after both steps the lock succeeds with the object alive. -/
theorem c4_lock_race_exists :
    ((lockRace Sched.bMid).1 = true ∧ (lockRace Sched.bMid).2.objDestroyed = true
      ∧ (lockRace Sched.bMid).2.cbFreed = true)
    ∧ ((lockRace Sched.bFirst).1 = false ∧ (lockRace Sched.bFirst).2.objDestroyed = true)
    ∧ ((lockRace Sched.bLast).1 = true ∧ (lockRace Sched.bLast).2.objDestroyed = false) := by
  decide

/-! The make_shared failure path of claim C6. -/

/-- Outcome of one my_shared_ptr::make_shared call: whether a pointer was
returned (ok) or the payload-constructor failure propagated, how many raw
blocks are left allocated but owned by nobody, and which parts were
constructed. -/
structure MakeSharedOutcome where
  ok : Bool
  leakedBlocks : Nat
  cbConstructed : Bool
  payloadConstructed : Bool
deriving DecidableEq, Repr

/-- my_shared_ptr::make_shared (lines 97-103) with a payload constructor
that may fail (ctorOk false models T(args...) throwing).  Line 99 obtains
one raw block from ::operator new; line 100 constructs the control block in
place (cannot fail); line 101 constructs the payload in the adjacent
storage.  make_shared has no handler, and when the initialization of a
placement new-expression fails, C++ calls the matching non-allocating
placement deallocation function, which does nothing - so on failure the raw
block from line 99 stays allocated with no owner while the exception
propagates to the caller.  On success the block is owned by the returned
pointer, hence not leaked. -/
def make_shared (ctorOk : Bool) : MakeSharedOutcome :=
  if ctorOk then
    { ok := true, leakedBlocks := 0, cbConstructed := true, payloadConstructed := true }
  else
    { ok := false, leakedBlocks := 1, cbConstructed := true, payloadConstructed := false }

/-- Claim C6 is violated by the code (code_bug evidence): when the payload
constructor fails, the failure propagates (no pointer is returned) but the
combined allocation remains allocated - one leaked block with a constructed
control block in it - instead of every partial allocation being rolled
back.  The success path leaks nothing. -/
theorem c6_make_shared_leaks_on_ctor_failure :
    (make_shared false).ok = false
    ∧ (make_shared false).leakedBlocks = 1
    ∧ (make_shared false).cbConstructed = true
    ∧ (make_shared true).leakedBlocks = 0 := by
  decide

/-! my_unique_ptr (src/unique_ptr.cpp).  A handle is the optional identity
of the owned object; destructor runs are recorded in a log of object
identities, so that "destroyed exactly once" is a count in the log. -/

/-- The delete expression on the raw pointer: delete nullptr does nothing;
delete on an owned object runs its destructor once (appends it to the
log). -/
def deleteRaw (h : Option Nat) (log : List Nat) : List Nat :=
  match h with
  | none => log
  | some o => log ++ [o]

/-- my_unique_ptr move constructor (unique_ptr.cpp lines 22-26): the
destination takes src.rawPtr and src.rawPtr becomes null; nothing is
destroyed.  Returns (destination, source after the move). -/
def moveCtor (src : Option Nat) : Option Nat × Option Nat :=
  (src, none)

/-- my_unique_ptr move assignment (lines 29-37) when the guard
`this != &src` holds: delete the destination handle, take src.rawPtr, null
out src.  Returns (destination, source after the move, destructor log). -/
def moveAssign (dest src : Option Nat) (log : List Nat) :
    Option Nat × Option Nat × List Nat :=
  (src, none, deleteRaw dest log)

/-- my_unique_ptr move assignment when `this == &src`: the guard on line 31
makes it a no-op; in particular nothing is destroyed. -/
def moveAssignSelf (p : Option Nat) (log : List Nat) : Option Nat × List Nat :=
  (p, log)

/-- my_unique_ptr destructor (lines 40-42): delete rawPtr. -/
def uniqueDtor (p : Option Nat) (log : List Nat) : List Nat :=
  deleteRaw p log

/-- The scenario of claim C8: dest currently owns dest0, src owns o;
dest = std::move(src); then dest goes out of scope, then src does.
Returns the destructor log. -/
def moveThenDestroyBoth (o : Nat) (dest0 : Option Nat) (log : List Nat) : List Nat :=
  uniqueDtor (moveAssign dest0 (some o) log).2.1
    (uniqueDtor (moveAssign dest0 (some o) log).1 (moveAssign dest0 (some o) log).2.2)

/-- Claim C8: move construction transfers the handle and empties the
source without destroying anything; move assignment first deletes the
object owned by the destination, then transfers and empties the source;
self-move-assignment is a no-op that destroys nothing; and in the
move-then-scope-exit scenario the moved payload o is destroyed exactly once
(the source being empty after the move, its destructor deletes nullptr).
The hypothesis says the destination does not already own o, which would be
the double-ownership precondition violation. -/
theorem c8_unique_ptr_move (o : Nat) (dest0 : Option Nat) (log : List Nat)
    (hdistinct : dest0 ≠ some o) :
    moveCtor (some o) = (some o, none)
    ∧ moveAssign dest0 (some o) log = (some o, none, deleteRaw dest0 log)
    ∧ moveAssignSelf (some o) log = (some o, log)
    ∧ (moveThenDestroyBoth o dest0 log).count o = log.count o + 1 := by
  refine ⟨rfl, rfl, rfl, ?_⟩
  unfold moveThenDestroyBoth moveAssign uniqueDtor
  cases dest0 with
  | none => simp [deleteRaw]
  | some d =>
      have hd : ¬ (o = d) := fun hdo => hdistinct (by rw [hdo])
      simp [deleteRaw, List.count_append, List.count_cons, List.count_nil, hd]

/-- Witness for C8 with payload 0 moved into an empty destination. -/
theorem c8_witness :
    moveCtor (some 0) = (some 0, none)
    ∧ moveAssign none (some 0) [] = (some 0, none, deleteRaw none [])
    ∧ moveAssignSelf (some 0) [] = (some 0, [])
    ∧ (moveThenDestroyBoth 0 none []).count 0 = ([] : List Nat).count 0 + 1 :=
  c8_unique_ptr_move 0 none [] (by decide)

end SmartPtr
